import Mathlib

/-!
Verification of the lifecycle-and-telemetry orchestrator in
`scratch/evaluate_qd_dense_scenario_single_ap.cc` (ns3-802.11ad).

Shallow embedding conventions:
* ns-3 `Time` values are simulated nanoseconds, modelled as `Nat`.
* `Mac48Address` and `Ptr<Node>` are opaque identities, modelled as `Nat`.
* C++ `uint64_t` arithmetic is `Nat` with explicit wrap-around `% 2^64`
  where the source subtracts; `uint16_t` increments wrap `% 2^16`.
* C++ `double` quantities (throughput rates) are modelled as `ℚ`.
* `std::map` is an association list (`List (Nat × v)`) preserving the
  operator[] semantics of the source: lookup default-inserts a
  default-constructed value when the key is absent.
* `NS_FATAL_ERROR` branches are modelled with `Except String`.
-/

namespace QdDense

/-- C++ `uint64_t` subtraction `a - b`: wrap-around modulo `2^64`. -/
def sub64 (a b : Nat) : Nat :=
  (2 ^ 64 + a % 2 ^ 64 - b % 2 ^ 64) % 2 ^ 64

/-- The `CommunicationPair` record of the source (`struct CommunicationPair`):
`srcApp`/`packetSink` handles live in the substrate; the state this core owns is
the cumulative byte count recorded at the last sample (`totalRx`, a `uint64_t`
initialised to 0), the running sum of per-tick rates (`throughput`, a `double`
initialised to 0), and the generator-start timestamp (`startTime`).
`appRunning` models whether the bound generator has been issued a start. -/
structure CommunicationPair where
  totalRx : Nat := 0
  throughput : ℚ := 0
  startTime : Nat := 0
  appRunning : Bool := false
  deriving DecidableEq, Repr

/-- `CalculateSingleStreamThroughput (sink, lastTotalRx, averageThroughput)`:
`thr = (sink->GetTotalRx () - lastTotalRx) * 8 / 1e5` (the subtraction is
`uint64_t`), then `lastTotalRx = sink->GetTotalRx ()` and
`averageThroughput += thr`.  Returns `(thr, new lastTotalRx, new average)`.
`sinkTotalRx` is the collector's cumulative received-byte count (a `uint64_t`,
hence `< 2^64` whenever it comes from the substrate). -/
def CalculateSingleStreamThroughput (sinkTotalRx lastTotalRx : Nat)
    (averageThroughput : ℚ) : ℚ × Nat × ℚ :=
  let thr : ℚ := (sub64 sinkTotalRx lastTotalRx : ℚ) * 8 / 100000
  (thr, sinkTotalRx, averageThroughput + thr)

/-- ns-3 `MilliSeconds`, in nanoseconds. -/
def milliSeconds (n : Nat) : Nat := n * 1000000

/-- ns-3 `Seconds (0.1)` (the initial schedule of the sampler), in nanoseconds. -/
def seconds0p1 : Nat := 100000000

/-- `CalculateThroughput`: for every registered pair (paired here with its
collector's current cumulative count), run `CalculateSingleStreamThroughput`,
accumulate the total, and finally `Simulator::Schedule (MilliSeconds (100),
&CalculateThroughput)` — unconditionally, in both the `csv` and the plain
branch.  Returns the per-pair rates, the total, the updated pair table and the
absolute time of the next firing (a scheduled callback runs at `now + delay`
in zero simulated time). -/
def CalculateThroughput (csv : Bool) (now : Nat)
    (pairs : List (Nat × CommunicationPair)) :
    (List ℚ × ℚ) × List (Nat × CommunicationPair) × Nat :=
  let processed := pairs.map (fun sp =>
    let r := CalculateSingleStreamThroughput sp.1 sp.2.totalRx sp.2.throughput
    (r.1, (sp.1, { sp.2 with totalRx := r.2.1, throughput := r.2.2 })))
  let rates := processed.map Prod.fst
  if csv then
    ((rates, rates.sum), processed.map Prod.snd, now + milliSeconds 100)
  else
    ((rates, rates.sum), processed.map Prod.snd, now + milliSeconds 100)

/-- The chain of sampler firings: `main` schedules the first firing at
`Seconds (0.1)`; each firing re-arms the next one itself.  `inputs n` is the
pair table (with collector readings) the `n`-th firing observes — the fire
times must not depend on it. -/
def fireTime (csv : Bool) (inputs : Nat → List (Nat × CommunicationPair)) :
    Nat → Nat
  | 0 => seconds0p1
  | n + 1 => (CalculateThroughput csv (fireTime csv inputs n) (inputs n)).2.2

/-- Iterated sample ticks of a single pair: `cs` is the sequence of cumulative
collector readings observed at successive ticks; state is
`(lastTotalRx, averageThroughput)`. -/
def runTicks (cs : List Nat) (lastTotalRx : Nat) (averageThroughput : ℚ) :
    Nat × ℚ :=
  match cs with
  | [] => (lastTotalRx, averageThroughput)
  | c :: rest =>
      let r := CalculateSingleStreamThroughput c lastTotalRx averageThroughput
      runTicks rest r.2.1 r.2.2

/-! ## Traffic-Pair Lifecycle Manager (`StationAssoicated` / `StationDeassoicated`,
`InstallApplications`, `communicationPairList`) -/

/-- A command issued to the pair's bound traffic generator (`srcApp`). -/
inductive AppCommand where
  | start
  | stop
  deriving DecidableEq, Repr

/-- `communicationPairList.find (node)`, returning the pair record. -/
def findPair (l : List (Nat × CommunicationPair)) (node : Nat) :
    Option CommunicationPair :=
  match l with
  | [] => none
  | kv :: rest => if kv.1 = node then some kv.2 else findPair rest node

/-- In-place mutation of the record found for `node` (the source mutates
through the iterator `it->second`). -/
def updatePair (l : List (Nat × CommunicationPair)) (node : Nat)
    (f : CommunicationPair → CommunicationPair) :
    List (Nat × CommunicationPair) :=
  l.map (fun kv => if kv.1 = node then (kv.1, f kv.2) else kv)

/-- `StationAssoicated (node, staWifiMac, address, aid)`: look the node up in
`communicationPairList`; if found, `it->second.startTime = Simulator::Now ()`
and `it->second.srcApp->StartApplication ()`; otherwise
`NS_FATAL_ERROR ("Could not find application to run.")`. -/
def StationAssoicated (l : List (Nat × CommunicationPair)) (node : Nat)
    (now : Nat) :
    Except String (List (Nat × CommunicationPair) × AppCommand) :=
  match findPair l node with
  | some _ =>
      .ok (updatePair l node
             (fun p => { p with startTime := now, appRunning := true }),
           .start)
  | none => .error "Could not find application to run."

/-- `StationDeassoicated (node, staWifiMac, address)`: look the node up; if
found, `it->second.srcApp->StopApplication ()` (the record is not erased);
otherwise `NS_FATAL_ERROR ("Could not find application to delete.")`. -/
def StationDeassoicated (l : List (Nat × CommunicationPair)) (node : Nat) :
    Except String (List (Nat × CommunicationPair) × AppCommand) :=
  match findPair l node with
  | some _ =>
      .ok (updatePair l node (fun p => { p with appRunning := false }), .stop)
  | none => .error "Could not find application to delete."

/-- `InstallApplications` constructs a fresh pair record: the struct default
initialisers give `totalRx = 0`, `throughput = 0`, `startTime = Time ()`
(zero), and the generator is dormant (its activation window starts after the
nominal simulation end). -/
def InstallApplications : CommunicationPair := {}

/-- `communicationPairList[node] = InstallApplications (...)`:
`std::map::operator[]` followed by assignment — insert when the key is new,
silently overwrite when it is already bound. -/
def registerPair (l : List (Nat × CommunicationPair)) (node : Nat)
    (pair : CommunicationPair) : List (Nat × CommunicationPair) :=
  if (findPair l node).isSome then
    l.map (fun kv => if kv.1 = node then (node, pair) else kv)
  else
    l ++ [(node, pair)]

/-! ## Peer Registry (`map_Mac2ID`) and the SLS trace emitter -/

/-- `map_Mac2ID[address]` on the read side: `std::map::operator[]` returns the
mapped index when the key is present and otherwise *default-inserts* the key
with value `0` and returns `0`.  Returns `(index, registry after lookup)`. -/
def mac2idIndex (m : List (Nat × Nat)) (address : Nat) :
    Nat × List (Nat × Nat) :=
  match m.find? (fun kv => kv.1 == address) with
  | some kv => (kv.2, m)
  | none => (0, m ++ [(address, 0)])

/-- `map_Mac2ID[addr] = id` on the write side (insert-or-assign). -/
def mac2idAssign (m : List (Nat × Nat)) (address id : Nat) :
    List (Nat × Nat) :=
  if (m.find? (fun kv => kv.1 == address)).isSome then
    m.map (fun kv => if kv.1 == address then (address, id) else kv)
  else
    m ++ [(address, id)]

/-- The one-time build in `main`: iterate every device `(address, node id)`
and record `map_Mac2ID[netDevice->GetMac ()->GetAddress ()] =
netDevice->GetNode ()->GetId ()`. -/
def buildMac2ID (devices : List (Nat × Nat)) : List (Nat × Nat) :=
  devices.foldl (fun m d => mac2idAssign m d.1 d.2) []

/-- Pure membership lookup used only in specifications (the recorded index of
an address, when present). -/
def regLookup (m : List (Nat × Nat)) (address : Nat) : Option Nat :=
  (m.find? (fun kv => kv.1 == address)).map Prod.snd

/-- One row of `slsResults.csv`: `SRC_ID, DST_ID, TRACE_IDX, SECTOR_ID,
ANTENNA_ID, ROLE, BSS_ID, Timestamp`. -/
structure SlsRow where
  srcId : Nat
  dstId : Nat
  traceIdx : Nat
  sectorId : Nat
  antennaId : Nat
  role : Nat
  bssId : Nat
  timestampNs : Nat
  deriving DecidableEq, Repr

/-- `SLSCompleted`: emits `parameters->srcNodeID + 1`,
`map_Mac2ID[address] + 1`, the trace index, sector/antenna ids, the station
role, `map_Mac2ID[parameters->wifiMac->GetBssid ()] + 1` and the timestamp.
Both `map_Mac2ID[...]` reads use operator[] and may mutate the registry, so
the updated registry is returned alongside the row. -/
def SLSCompleted (m : List (Nat × Nat)) (srcNodeID : Nat) (address : Nat)
    (bssid : Nat) (traceIdx sectorId antennaId role ts : Nat) :
    SlsRow × List (Nat × Nat) :=
  let r1 := mac2idIndex m address
  let r2 := mac2idIndex r1.2 bssid
  (⟨srcNodeID + 1, r1.1 + 1, traceIdx, sectorId, antennaId, role,
    r2.1 + 1, ts⟩, r2.2)

/-! ## Beam-Retraining Trigger (`DataTransmissionIntervalStarted`) -/

/-- `uint16_t biThreshold = 10`: the BI threshold that triggers a TxSS TXOP
(fixed; no command-line option changes it). -/
def biThreshold : Nat := 10

/-- `DataTransmissionIntervalStarted (wifiMac, address, _)`: when
`wifiMac->IsAssociated ()`, read `biCounter[address]`, increment it
(`uint16_t`, so modulo `2^16`); when the incremented counter equals the
threshold, `wifiMac->InitiateTxssCbap (wifiMac->GetBssid ())` and reset the
counter to 0; store the counter back.  When not associated, nothing happens.
Returns the new stored counter for `address` and the TxSS re-sweep target,
when one was requested. -/
def DataTransmissionIntervalStarted (threshold : Nat) (associated : Bool)
    (bssid : Nat) (storedCounter : Nat) : Nat × Option Nat :=
  if associated then
    let counter := (storedCounter + 1) % 2 ^ 16
    if counter = threshold then (0, some bssid) else (counter, none)
  else
    (storedCounter, none)

/-! ## Frame-reception signal-quality emitter (`MacRxOk`) -/

/-- The `WifiMacType` values `MacRxOk` inspects, plus representatives of the
other frame types (acknowledgments, beacons, plain data, management
association frames). -/
inductive WifiMacType where
  | WIFI_MAC_QOSDATA
  | WIFI_MAC_EXTENSION_DMG_BEACON
  | WIFI_MAC_CTL_DMG_SSW
  | WIFI_MAC_CTL_DMG_SSW_FBCK
  | WIFI_MAC_CTL_DMG_SSW_ACK
  | WIFI_MAC_CTL_ACK
  | WIFI_MAC_MGT_BEACON
  | WIFI_MAC_MGT_ASSOCIATION_REQUEST
  | WIFI_MAC_DATA
  deriving DecidableEq, Repr

/-- One row of `snrValues.csv`: `TIME, SRC, DST, SNR`. -/
structure SnrRow where
  timestampNs : Nat
  transmitter : Nat
  receiver : Nat
  snr : ℚ
  deriving DecidableEq, Repr

/-- `MacRxOk (WifiMac, stream, type, address, snrValue)`: when
`type == WIFI_MAC_QOSDATA && reportDataSnr`, emit
`now_ns, address, WifiMac->GetAddress (), snrValue`; else when the type is a
DMG beacon or one of the three sector-sweep control frames, emit the same
row; otherwise emit nothing. -/
def MacRxOk (ts : Nat) (receiverAddr : Nat) (tp : WifiMacType)
    (address : Nat) (snrValue : ℚ) (reportDataSnr : Bool) : Option SnrRow :=
  if tp = .WIFI_MAC_QOSDATA ∧ reportDataSnr = true then
    some ⟨ts, address, receiverAddr, snrValue⟩
  else if tp = .WIFI_MAC_EXTENSION_DMG_BEACON ∨ tp = .WIFI_MAC_CTL_DMG_SSW
      ∨ tp = .WIFI_MAC_CTL_DMG_SSW_FBCK ∨ tp = .WIFI_MAC_CTL_DMG_SSW_ACK then
    some ⟨ts, address, receiverAddr, snrValue⟩
  else
    none

/-! ## Basic arithmetic facts about the embedding -/

/-- For `b ≤ a < 2^64` the wrap-around subtraction is the true difference. -/
theorem sub64_of_le (a b : Nat) (hba : b ≤ a) (ha : a < 2 ^ 64) :
    sub64 a b = a - b := by
  have hb : b < 2 ^ 64 := lt_of_le_of_lt hba ha
  unfold sub64
  rw [Nat.mod_eq_of_lt ha, Nat.mod_eq_of_lt hb]
  have h1 : 2 ^ 64 + a - b = 2 ^ 64 + (a - b) := by omega
  rw [h1, Nat.add_mod_left, Nat.mod_eq_of_lt (by omega)]

/-- C1: for every registered traffic pair, at every sample tick, the reported
rate equals (collector cumulative received bytes minus the stored last-total)
`* 8 / 1e5` exactly; the delta is non-negative under monotone collector
counts; after the tick the stored last-total equals the collector's current
cumulative count and the running rate sum has grown by exactly the reported
rate. -/
theorem throughput_tick_correct (c lastTotal : Nat) (avg : ℚ)
    (hmono : lastTotal ≤ c) (hc : c < 2 ^ 64) :
    (CalculateSingleStreamThroughput c lastTotal avg).1 =
      ((c : ℚ) - (lastTotal : ℚ)) * 8 / 100000 ∧
    0 ≤ (c : ℚ) - (lastTotal : ℚ) ∧
    (CalculateSingleStreamThroughput c lastTotal avg).2.1 = c ∧
    (CalculateSingleStreamThroughput c lastTotal avg).2.2 =
      avg + (CalculateSingleStreamThroughput c lastTotal avg).1 := by
  have h := sub64_of_le c lastTotal hmono hc
  have hcast : ((c - lastTotal : ℕ) : ℚ) = (c : ℚ) - (lastTotal : ℚ) := by
    push_cast [hmono]
    ring
  refine ⟨?_, ?_, rfl, rfl⟩
  · show (sub64 c lastTotal : ℚ) * 8 / 100000 = _
    rw [h, hcast]
  · have : (lastTotal : ℚ) ≤ (c : ℚ) := by exact_mod_cast hmono
    linarith

/-- Witness for `throughput_tick_correct`: 10000 bytes received in one tick
yield a rate of 0.8 Mbps. -/
theorem throughput_tick_correct_witness :
    ((0 : Nat) ≤ 10000 ∧ (10000 : Nat) < 2 ^ 64) ∧
    ((CalculateSingleStreamThroughput 10000 0 0).1 =
        ((10000 : ℚ) - (0 : ℚ)) * 8 / 100000 ∧
      0 ≤ (10000 : ℚ) - (0 : ℚ) ∧
      (CalculateSingleStreamThroughput 10000 0 0).2.1 = 10000 ∧
      (CalculateSingleStreamThroughput 10000 0 0).2.2 =
        0 + (CalculateSingleStreamThroughput 10000 0 0).1) :=
  ⟨⟨by norm_num, by norm_num⟩,
   throughput_tick_correct 10000 0 0 (by norm_num) (by norm_num)⟩

/-- Auxiliary invariant for the telescoping sum: after any monotone run of
ticks, the running sum has grown by the total byte delta scaled by
`8 / 1e5`. -/
theorem runTicks_sub_invariant (cs : List Nat) (lastTotal : Nat) (avg : ℚ)
    (hchain : List.Chain (· ≤ ·) lastTotal cs)
    (hb : ∀ c ∈ cs, c < 2 ^ 64) :
    (runTicks cs lastTotal avg).2 =
      avg + (((runTicks cs lastTotal avg).1 : ℚ) - (lastTotal : ℚ))
        * 8 / 100000 := by
  induction cs generalizing lastTotal avg with
  | nil => simp [runTicks]
  | cons c rest ih =>
      obtain ⟨hle, hchain2⟩ := List.chain_cons.mp hchain
      have hc : c < 2 ^ 64 := hb c (by simp)
      have hb2 : ∀ x ∈ rest, x < 2 ^ 64 := fun x hx => hb x (by simp [hx])
      have hcast : ((c - lastTotal : ℕ) : ℚ) = (c : ℚ) - (lastTotal : ℚ) := by
        push_cast [hle]
        ring
      simp only [runTicks, CalculateSingleStreamThroughput]
      rw [ih c _ hchain2 hb2, sub64_of_le c lastTotal hle hc, hcast]
      ring

/-- C10: starting from the freshly installed record (stored last-total 0,
running rate sum 0), after any monotone sequence of sample ticks the running
rate sum equals the current stored last-total times `8 / 1e5`. -/
theorem runTicks_telescopes (cs : List Nat)
    (hchain : List.Chain (· ≤ ·) 0 cs) (hb : ∀ c ∈ cs, c < 2 ^ 64) :
    (runTicks cs InstallApplications.totalRx InstallApplications.throughput).2
      = ((runTicks cs InstallApplications.totalRx
            InstallApplications.throughput).1 : ℚ) * 8 / 100000 := by
  have h := runTicks_sub_invariant cs 0 0 hchain hb
  simpa [InstallApplications] using h

/-- Witness for `runTicks_telescopes`: three ticks observing cumulative counts
10000, 10000, 30000 leave a running sum of 2.4 = 30000 * 8 / 1e5. -/
theorem runTicks_telescopes_witness :
    (List.Chain (· ≤ ·) 0 [10000, 10000, 30000] ∧
      ∀ c ∈ [10000, 10000, 30000], c < 2 ^ 64) ∧
    (runTicks [10000, 10000, 30000] InstallApplications.totalRx
        InstallApplications.throughput).2
      = ((runTicks [10000, 10000, 30000] InstallApplications.totalRx
            InstallApplications.throughput).1 : ℚ) * 8 / 100000 :=
  ⟨⟨by norm_num [List.chain_cons], by decide⟩,
   runTicks_telescopes [10000, 10000, 30000] (by norm_num [List.chain_cons])
     (by decide)⟩

/-- C2: while not associated, a beacon-interval-start event leaves the retrain
counter untouched and requests nothing; while associated, the counter advances
by exactly 1, a TxSS re-sweep toward the current coordinator (`GetBssid`) is
requested exactly when the counter reaches the threshold (default 10), the
counter then resets to 0, and the stored counter always stays below the
threshold. -/
theorem retrain_counter_step (threshold counter bssid : Nat)
    (hth : threshold < 2 ^ 16) (hcounter : counter < threshold) :
    biThreshold = 10 ∧
    DataTransmissionIntervalStarted threshold false bssid counter =
      (counter, none) ∧
    (counter + 1 = threshold →
      DataTransmissionIntervalStarted threshold true bssid counter =
        (0, some bssid)) ∧
    (counter + 1 ≠ threshold →
      DataTransmissionIntervalStarted threshold true bssid counter =
        (counter + 1, none)) ∧
    (DataTransmissionIntervalStarted threshold true bssid counter).1
      < threshold := by
  have hmod : (counter + 1) % 65536 = counter + 1 :=
    Nat.mod_eq_of_lt (by omega)
  have hstep : DataTransmissionIntervalStarted threshold true bssid counter =
      if counter + 1 = threshold then (0, some bssid)
      else (counter + 1, none) := by
    simp [DataTransmissionIntervalStarted, hmod]
  refine ⟨rfl, rfl, ?_, ?_, ?_⟩
  · intro h
    rw [hstep, if_pos h]
  · intro h
    rw [hstep, if_neg h]
  · rw [hstep]
    by_cases h : counter + 1 = threshold
    · rw [if_pos h]
      show (0 : Nat) < threshold
      omega
    · rw [if_neg h]
      show counter + 1 < threshold
      omega

/-- Witness for `retrain_counter_step`: threshold 10, counter 9: the next
associated beacon interval triggers a re-sweep and resets to 0. -/
theorem retrain_counter_step_witness :
    ((10 : Nat) < 2 ^ 16 ∧ (9 : Nat) < 10) ∧
    (biThreshold = 10 ∧
      DataTransmissionIntervalStarted 10 false 7 9 = (9, none) ∧
      (9 + 1 = 10 → DataTransmissionIntervalStarted 10 true 7 9 =
        (0, some 7)) ∧
      (9 + 1 ≠ 10 → DataTransmissionIntervalStarted 10 true 7 9 =
        (9 + 1, none)) ∧
      (DataTransmissionIntervalStarted 10 true 7 9).1 < 10) :=
  ⟨⟨by norm_num, by norm_num⟩,
   retrain_counter_step 10 9 7 (by norm_num) (by norm_num)⟩

/-- C9: every firing of the throughput sampler unconditionally schedules the
next firing exactly 100 ms later (in both output modes, for every pair table),
and the firing chain started by `main` at `Seconds (0.1)` therefore fires its
`n`-th repetition at exactly `0.1 s + n * 100 ms`, independent of the
observed data. -/
theorem sampler_rearm_fixed_period (csv : Bool) (now : Nat)
    (pairs : List (Nat × CommunicationPair))
    (inputs : Nat → List (Nat × CommunicationPair)) (n : Nat) :
    (CalculateThroughput csv now pairs).2.2 = now + milliSeconds 100 ∧
    fireTime csv inputs n = seconds0p1 + n * milliSeconds 100 := by
  constructor
  · cases csv <;> rfl
  · induction n with
    | zero => simp [fireTime]
    | succ k ih =>
        have hstep :
            (CalculateThroughput csv (fireTime csv inputs k) (inputs k)).2.2
              = fireTime csv inputs k + milliSeconds 100 := by
          cases csv <;> rfl
        rw [fireTime, hstep, ih]
        ring

/-- Witness for `sampler_rearm_fixed_period` at a concrete instant and
chain position. -/
theorem sampler_rearm_fixed_period_witness :
    (CalculateThroughput true 500 []).2.2 = 500 + milliSeconds 100 ∧
    fireTime true (fun _ => []) 3 = seconds0p1 + 3 * milliSeconds 100 :=
  sampler_rearm_fixed_period true 500 [] (fun _ => []) 3

/-- Mutating the record stored for `node` is visible through the next
lookup. -/
theorem findPair_updatePair (l : List (Nat × CommunicationPair)) (n : Nat)
    (f : CommunicationPair → CommunicationPair) :
    findPair (updatePair l n f) n = (findPair l n).map f := by
  induction l with
  | nil => rfl
  | cons kv rest ih =>
      by_cases h : kv.1 = n
      · simp [updatePair, findPair, h]
      · simp only [updatePair, List.map_cons, findPair, h, if_neg,
          if_false] at ih ⊢
        simpa [h] using ih

/-- C3: for a peer with a registered pair, each `StationAssoicated` call sets
the pair's start time to the current simulation time and starts the bound
generator; after a deassociation (which keeps the record) a re-association
overwrites the stored start time with the new association time and restarts
the generator. -/
theorem reassociation_overwrites_start (l : List (Nat × CommunicationPair))
    (node t1 t2 : Nat) (p : CommunicationPair)
    (hreg : findPair l node = some p) :
    ∃ l1 l2 l3,
      StationAssoicated l node t1 = .ok (l1, .start) ∧
      findPair l1 node = some { p with startTime := t1, appRunning := true } ∧
      StationDeassoicated l1 node = .ok (l2, .stop) ∧
      findPair l2 node =
        some { p with startTime := t1, appRunning := false } ∧
      StationAssoicated l2 node t2 = .ok (l3, .start) ∧
      findPair l3 node =
        some { p with startTime := t2, appRunning := true } := by
  have hf1 : findPair
      (updatePair l node
        (fun q => { q with startTime := t1, appRunning := true })) node =
      some { p with startTime := t1, appRunning := true } := by
    rw [findPair_updatePair, hreg]
    rfl
  have hf2 : findPair
      (updatePair
        (updatePair l node
          (fun q => { q with startTime := t1, appRunning := true }))
        node (fun q => { q with appRunning := false })) node =
      some { p with startTime := t1, appRunning := false } := by
    rw [findPair_updatePair, hf1]
    rfl
  have hf3 : findPair
      (updatePair
        (updatePair
          (updatePair l node
            (fun q => { q with startTime := t1, appRunning := true }))
          node (fun q => { q with appRunning := false }))
        node (fun q => { q with startTime := t2, appRunning := true }))
      node = some { p with startTime := t2, appRunning := true } := by
    rw [findPair_updatePair, hf2]
    rfl
  have hs1 : StationAssoicated l node t1 =
      .ok (updatePair l node
             (fun q => { q with startTime := t1, appRunning := true }),
           .start) := by
    simp [StationAssoicated, hreg]
  have hs2 : StationDeassoicated
      (updatePair l node
        (fun q => { q with startTime := t1, appRunning := true })) node =
      .ok (updatePair
             (updatePair l node
               (fun q => { q with startTime := t1, appRunning := true }))
             node (fun q => { q with appRunning := false }),
           .stop) := by
    simp [StationDeassoicated, hf1]
  have hs3 : StationAssoicated
      (updatePair
        (updatePair l node
          (fun q => { q with startTime := t1, appRunning := true }))
        node (fun q => { q with appRunning := false })) node t2 =
      .ok (updatePair
             (updatePair
               (updatePair l node
                 (fun q => { q with startTime := t1, appRunning := true }))
               node (fun q => { q with appRunning := false }))
             node (fun q => { q with startTime := t2, appRunning := true }),
           .start) := by
    simp [StationAssoicated, hf2]
  exact ⟨_, _, _, hs1, hf1, hs2, hf2, hs3, hf3⟩

/-- Witness for `reassociation_overwrites_start`: one registered peer,
associated at t=5, deassociated, re-associated at t=9. -/
theorem reassociation_overwrites_start_witness :
    findPair [(1, ({} : CommunicationPair))] 1 = some {} ∧
    (∃ l1 l2 l3,
      StationAssoicated [(1, ({} : CommunicationPair))] 1 5 =
        .ok (l1, .start) ∧
      findPair l1 1 =
        some { ({} : CommunicationPair) with
                 startTime := 5, appRunning := true } ∧
      StationDeassoicated l1 1 = .ok (l2, .stop) ∧
      findPair l2 1 =
        some { ({} : CommunicationPair) with
                 startTime := 5, appRunning := false } ∧
      StationAssoicated l2 1 9 = .ok (l3, .start) ∧
      findPair l3 1 =
        some { ({} : CommunicationPair) with
                 startTime := 9, appRunning := true }) :=
  ⟨rfl, reassociation_overwrites_start [(1, {})] 1 5 9 {} rfl⟩

/-- C4: an association or deassociation event is a fatal error exactly when
the peer has no registered traffic pair: the `NS_FATAL_ERROR` branch is taken
whenever the lookup fails, and only then. -/
theorem assoc_fatal_iff_unregistered (l : List (Nat × CommunicationPair))
    (node now : Nat) :
    ((∃ e, StationAssoicated l node now = .error e) ↔
      findPair l node = none) ∧
    ((∃ e, StationDeassoicated l node = .error e) ↔
      findPair l node = none) := by
  constructor
  · cases hf : findPair l node <;>
      simp [StationAssoicated, hf]
  · cases hf : findPair l node <;>
      simp [StationDeassoicated, hf]

/-- Witness for `assoc_fatal_iff_unregistered`: peer 2 is unregistered in a
table holding only peer 1. -/
theorem assoc_fatal_iff_unregistered_witness :
    ((∃ e, StationAssoicated [(1, ({} : CommunicationPair))] 2 5 =
        .error e) ↔
      findPair [(1, ({} : CommunicationPair))] 2 = none) ∧
    ((∃ e, StationDeassoicated [(1, ({} : CommunicationPair))] 2 =
        .error e) ↔
      findPair [(1, ({} : CommunicationPair))] 2 = none) :=
  assoc_fatal_iff_unregistered [(1, {})] 2 5

/-- C7: a frame-reception signal-quality callback emits exactly one row
`timestamp_ns, transmitter, receiver, signal_quality` if and only if the frame
type is one of the four beam-training types, or it is a QoS data frame and
data-frame reporting is enabled; every other case produces no output. -/
theorem macRxOk_allowlist (ts receiverAddr address : Nat) (snrValue : ℚ)
    (tp : WifiMacType) (reportDataSnr : Bool) :
    (MacRxOk ts receiverAddr tp address snrValue reportDataSnr =
        some ⟨ts, address, receiverAddr, snrValue⟩ ↔
      (tp = .WIFI_MAC_EXTENSION_DMG_BEACON ∨ tp = .WIFI_MAC_CTL_DMG_SSW ∨
        tp = .WIFI_MAC_CTL_DMG_SSW_FBCK ∨ tp = .WIFI_MAC_CTL_DMG_SSW_ACK ∨
        (tp = .WIFI_MAC_QOSDATA ∧ reportDataSnr = true))) ∧
    (MacRxOk ts receiverAddr tp address snrValue reportDataSnr = none ↔
      ¬(tp = .WIFI_MAC_EXTENSION_DMG_BEACON ∨ tp = .WIFI_MAC_CTL_DMG_SSW ∨
        tp = .WIFI_MAC_CTL_DMG_SSW_FBCK ∨ tp = .WIFI_MAC_CTL_DMG_SSW_ACK ∨
        (tp = .WIFI_MAC_QOSDATA ∧ reportDataSnr = true))) := by
  cases tp <;> cases reportDataSnr <;> simp [MacRxOk]

/-- Witness for `macRxOk_allowlist`: a sector-sweep feedback frame. -/
theorem macRxOk_allowlist_witness :
    (MacRxOk 1000 2 .WIFI_MAC_CTL_DMG_SSW_FBCK 3 (5 / 2) false =
        some ⟨1000, 3, 2, 5 / 2⟩ ↔
      (WifiMacType.WIFI_MAC_CTL_DMG_SSW_FBCK = .WIFI_MAC_EXTENSION_DMG_BEACON
        ∨ WifiMacType.WIFI_MAC_CTL_DMG_SSW_FBCK = .WIFI_MAC_CTL_DMG_SSW ∨
        WifiMacType.WIFI_MAC_CTL_DMG_SSW_FBCK = .WIFI_MAC_CTL_DMG_SSW_FBCK ∨
        WifiMacType.WIFI_MAC_CTL_DMG_SSW_FBCK = .WIFI_MAC_CTL_DMG_SSW_ACK ∨
        (WifiMacType.WIFI_MAC_CTL_DMG_SSW_FBCK = .WIFI_MAC_QOSDATA ∧
          false = true))) ∧
    (MacRxOk 1000 2 .WIFI_MAC_CTL_DMG_SSW_FBCK 3 (5 / 2) false = none ↔
      ¬(WifiMacType.WIFI_MAC_CTL_DMG_SSW_FBCK = .WIFI_MAC_EXTENSION_DMG_BEACON
        ∨ WifiMacType.WIFI_MAC_CTL_DMG_SSW_FBCK = .WIFI_MAC_CTL_DMG_SSW ∨
        WifiMacType.WIFI_MAC_CTL_DMG_SSW_FBCK = .WIFI_MAC_CTL_DMG_SSW_FBCK ∨
        WifiMacType.WIFI_MAC_CTL_DMG_SSW_FBCK = .WIFI_MAC_CTL_DMG_SSW_ACK ∨
        (WifiMacType.WIFI_MAC_CTL_DMG_SSW_FBCK = .WIFI_MAC_QOSDATA ∧
          false = true))) :=
  macRxOk_allowlist 1000 2 3 (5 / 2) .WIFI_MAC_CTL_DMG_SSW_FBCK false

/-- A recorded address resolves through operator[] to its index without
mutating the registry. -/
theorem mac2idIndex_of_lookup (m : List (Nat × Nat)) (a i : Nat)
    (h : regLookup m a = some i) :
    mac2idIndex m a = (i, m) := by
  cases hf : m.find? (fun kv => kv.1 == a) with
  | none => simp [regLookup, hf] at h
  | some kv =>
      have : kv.2 = i := by simpa [regLookup, hf] using h
      simp [mac2idIndex, hf, this]

/-- C8: in every sector-sweep-completion trace row, the reporting source, the
responder and the reporter's current coordinator are all displayed as their
registry index plus exactly 1 (and the registry is left unchanged), for every
registry contents. -/
theorem sls_display_ids (m : List (Nat × Nat))
    (srcNodeID srcAddr address bssid i j : Nat)
    (_hsrc : regLookup m srcAddr = some srcNodeID)
    (haddr : regLookup m address = some i)
    (hbss : regLookup m bssid = some j)
    (traceIdx sectorId antennaId role ts : Nat) :
    SLSCompleted m srcNodeID address bssid traceIdx sectorId antennaId
        role ts =
      (⟨srcNodeID + 1, i + 1, traceIdx, sectorId, antennaId, role,
        j + 1, ts⟩, m) := by
  simp only [SLSCompleted, mac2idIndex_of_lookup m address i haddr,
    mac2idIndex_of_lookup m bssid j hbss]

/-- Witness for `sls_display_ids`: the registry built from a coordinator
(address 100, index 0) and two peers; the row shows indices offset by 1. -/
theorem sls_display_ids_witness :
    (regLookup (buildMac2ID [(100, 0), (101, 1), (102, 2)]) 102 = some 2 ∧
      regLookup (buildMac2ID [(100, 0), (101, 1), (102, 2)]) 101 = some 1 ∧
      regLookup (buildMac2ID [(100, 0), (101, 1), (102, 2)]) 100 = some 0) ∧
    SLSCompleted (buildMac2ID [(100, 0), (101, 1), (102, 2)]) 2 101 100
        7 11 13 1 999 =
      (⟨2 + 1, 1 + 1, 7, 11, 13, 1, 0 + 1, 999⟩,
        buildMac2ID [(100, 0), (101, 1), (102, 2)]) :=
  ⟨⟨by decide, by decide, by decide⟩,
   sls_display_ids (buildMac2ID [(100, 0), (101, 1), (102, 2)])
     2 102 101 100 1 0 (by decide) (by decide) (by decide) 7 11 13 1 999⟩

/-- `find?` skips a list in which nothing satisfies the predicate. -/
theorem find?_append_of_none {α : Type} (l1 l2 : List α) (p : α → Bool)
    (h : l1.find? p = none) : (l1 ++ l2).find? p = l2.find? p := by
  induction l1 with
  | nil => simp
  | cons x rest ih =>
      cases hx : p x with
      | true => simp [List.find?, hx] at h
      | false =>
          simp only [List.find?, hx] at h
          simp only [List.cons_append, List.find?, hx]
          exact ih h

/-- C5 counterexample: querying the registry built from addresses 10 and 11
with the unrecorded address 99 is not a fatal error — it returns index 0 and
inserts `(99, 0)` into the registry after the one-time build. -/
theorem registry_miss_returns_zero :
    (mac2idIndex (buildMac2ID [(10, 0), (11, 1)]) 99).1 = 0 ∧
    (mac2idIndex (buildMac2ID [(10, 0), (11, 1)]) 99).2 =
      [(10, 0), (11, 1), (99, 0)] ∧
    buildMac2ID [(10, 0), (11, 1)] = [(10, 0), (11, 1)] := by
  refine ⟨rfl, rfl, rfl⟩

/-- C5 (amended): a lookup for an address not recorded at build time does not
fail: operator[] default-inserts the address with index 0 and returns 0, so
the registry grows on lookup misses; a lookup for a recorded address returns
its index and leaves the registry unchanged. -/
theorem registry_miss_default_inserts (m : List (Nat × Nat)) (a i : Nat) :
    (regLookup m a = none →
      mac2idIndex m a = (0, m ++ [(a, 0)]) ∧
      regLookup (m ++ [(a, 0)]) a = some 0) ∧
    (regLookup m a = some i → mac2idIndex m a = (i, m)) := by
  constructor
  · intro h
    have hf : m.find? (fun kv => kv.1 == a) = none := by
      cases hf : m.find? (fun kv => kv.1 == a)
      · rfl
      · simp [regLookup, hf] at h
    refine ⟨by simp [mac2idIndex, hf], ?_⟩
    unfold regLookup
    rw [find?_append_of_none _ _ _ hf]
    simp [List.find?]
  · exact mac2idIndex_of_lookup m a i

/-- Witness for `registry_miss_default_inserts` at the concrete registry of
`registry_miss_returns_zero`. -/
theorem registry_miss_default_inserts_witness :
    (regLookup [(10, 0), (11, 1)] 99 = none →
      mac2idIndex [(10, 0), (11, 1)] 99 =
        (0, [(10, 0), (11, 1)] ++ [(99, 0)]) ∧
      regLookup ([(10, 0), (11, 1)] ++ [(99, 0)]) 99 = some 0) ∧
    (regLookup [(10, 0), (11, 1)] 99 = some 0 →
      mac2idIndex [(10, 0), (11, 1)] 99 = (0, [(10, 0), (11, 1)])) :=
  registry_miss_default_inserts [(10, 0), (11, 1)] 99 0

/-- No record with key `n` exists exactly when the lookup fails. -/
theorem findPair_none_iff (l : List (Nat × CommunicationPair)) (n : Nat) :
    findPair l n = none ↔ ∀ kv ∈ l, kv.1 ≠ n := by
  induction l with
  | nil => simp [findPair]
  | cons kv rest ih =>
      by_cases h : kv.1 = n <;> simp [findPair, h, ih]

/-- Lookup passes over a list without the key. -/
theorem findPair_append_right (l1 l2 : List (Nat × CommunicationPair))
    (n : Nat) (h : findPair l1 n = none) :
    findPair (l1 ++ l2) n = findPair l2 n := by
  induction l1 with
  | nil => simp
  | cons kv rest ih =>
      by_cases hk : kv.1 = n
      · simp [findPair, hk] at h
      · simp only [findPair, hk, if_false, if_neg] at h
        simp only [List.cons_append, findPair, hk, if_false, if_neg]
        exact ih h

/-- Overwriting the entry with key `n` is visible through the lookup. -/
theorem findPair_overwrite (l : List (Nat × CommunicationPair)) (n : Nat)
    (p : CommunicationPair) (h : (findPair l n).isSome) :
    findPair (l.map (fun kv => if kv.1 = n then (n, p) else kv)) n =
      some p := by
  induction l with
  | nil => simp [findPair] at h
  | cons kv rest ih =>
      by_cases hk : kv.1 = n
      · simp [findPair, hk]
      · simp only [findPair, hk, if_false, if_neg] at h
        simp only [List.map_cons, if_neg hk, findPair, hk, if_false]
        exact ih h

/-- Overwriting the entry with key `n` leaves the key sequence unchanged. -/
theorem keys_overwrite (l : List (Nat × CommunicationPair)) (n : Nat)
    (p : CommunicationPair) :
    (l.map (fun kv => if kv.1 = n then (n, p) else kv)).map Prod.fst =
      l.map Prod.fst := by
  induction l with
  | nil => rfl
  | cons kv rest ih => by_cases hk : kv.1 = n <;> simp [hk, ih]

/-- C6 counterexample: registering a second pair for source peer 1 does not
fail — it silently replaces the existing binding (start time 5 is lost,
start time 7 is stored). -/
theorem registerPair_replaces_silently :
    registerPair (registerPair [] 1 { startTime := 5 }) 1
        { startTime := 7 } =
      [(1, ({ startTime := 7 } : CommunicationPair))] ∧
    findPair
      (registerPair (registerPair [] 1 { startTime := 5 }) 1
        { startTime := 7 }) 1 = some { startTime := 7 } := by
  exact ⟨rfl, rfl⟩

/-- C6 (amended): registration never fails: `operator[]` assignment inserts a
new binding or silently replaces the existing one.  The table nevertheless
keeps at most one record per source peer (duplicate-free keys are preserved,
and the registered record is the one found afterwards). -/
theorem registerPair_total_unique (l : List (Nat × CommunicationPair))
    (node : Nat) (p : CommunicationPair)
    (hnodup : (l.map Prod.fst).Nodup) :
    ((registerPair l node p).map Prod.fst).Nodup ∧
    findPair (registerPair l node p) node = some p := by
  unfold registerPair
  by_cases h : (findPair l node).isSome
  · rw [if_pos h]
    exact ⟨by rw [keys_overwrite]; exact hnodup, findPair_overwrite l node p h⟩
  · rw [if_neg h]
    have hnone : findPair l node = none := by
      cases hf : findPair l node
      · rfl
      · rw [hf] at h
        simp at h
    constructor
    · rw [List.map_append]
      simp only [List.map_cons, List.map_nil]
      rw [List.nodup_append]
      refine ⟨hnodup, List.nodup_singleton _, ?_⟩
      intro a ha hb
      simp only [List.mem_singleton] at hb
      simp only [List.mem_map] at ha
      obtain ⟨kv, hkv, hfst⟩ := ha
      exact (findPair_none_iff l node).mp hnone kv hkv (by rw [hfst, hb])
    · rw [findPair_append_right _ _ _ hnone]
      simp [findPair]

/-- Witness for `registerPair_total_unique`: replacing the only binding of a
singleton table. -/
theorem registerPair_total_unique_witness :
    (([(1, ({ startTime := 5 } : CommunicationPair))].map Prod.fst).Nodup) ∧
    (((registerPair [(1, { startTime := 5 })] 1
          { startTime := 7 }).map Prod.fst).Nodup ∧
      findPair (registerPair [(1, { startTime := 5 })] 1
          { startTime := 7 }) 1 = some { startTime := 7 }) :=
  ⟨by simp, registerPair_total_unique [(1, { startTime := 5 })] 1
    { startTime := 7 } (by simp)⟩

end QdDense
